import Mathlib

/-!
Shallow embedding of the airport surveillance scenario generator
(`generate_dataset.py`). Python's module-level Mersenne-Twister PRNG is
modelled as a pure linear-congruential stream threaded through the
generator state; floating-point quantities are modelled as rationals
(all weather/profile multipliers in the source are exact at the scale
used). Each generation method of `ScenarioGenerator` becomes a pure
function `GenState → GenState`.
-/

namespace AirportGen

/-- `PolicyZone` enum from the source. -/
inductive PolicyZone where
  | PZ1_CRITICAL_SECURITY
  | PZ2_BOARDING_GATES
  | PZ3_PUBLIC_AREA
  | PZ4_VIP_RESTRICTED
  | PZ5_ARRIVAL_BAGGAGE
deriving DecidableEq, Repr

/-- `IntentCategory` enum from the source. -/
inductive IntentCategory where
  | SAFETY_CRITICAL
  | CROWD_MONITORING
  | COST_OPTIMIZATION
  | NETWORK_QOS
  | CONTEXT_AWARE
  | FAULT_TOLERANCE
  | MULTI_OBJECTIVE
deriving DecidableEq, Repr

/-- All five policy zones, mirroring Python's `list(PolicyZone)`. -/
def allZones : List PolicyZone :=
  [.PZ1_CRITICAL_SECURITY, .PZ2_BOARDING_GATES, .PZ3_PUBLIC_AREA,
   .PZ4_VIP_RESTRICTED, .PZ5_ARRIVAL_BAGGAGE]

structure Camera where
  id : String
  zone : PolicyZone
  location : String
  priority : Nat
  resolution : String
  fps : Nat
  bitrate_mbps : ℚ
deriving DecidableEq, Repr

structure EdgeServer where
  id : String
  location : String
  cpu_cores : Nat
  memory_gb : Nat
  network_bandwidth_gbps : ℚ
deriving DecidableEq, Repr

structure CloudEndpoint where
  id : String
  location : String
  bandwidth_gbps : Nat
deriving DecidableEq, Repr

structure NetworkLink where
  src : String
  dst : String
  capacity_mbps : ℚ
  latency_ms : ℚ
  packet_loss_rate : ℚ
  stochastic : Bool := false
  link_type : String := "wired"
deriving DecidableEq, Repr

structure VideoFlow where
  id : String
  camera_id : String
  zone : PolicyZone
  source : String
  destination : String
  backup_destination : String
  bitrate_mbps : ℚ
  priority : Nat
  analytics_type : String
  compute_intensity : ℚ
  processing_delay_ms : ℚ
deriving DecidableEq, Repr

/-- Values appearing in an intent's opaque constraint mapping. -/
inductive ConstraintVal where
  | nat (n : Nat)
  | rat (q : ℚ)
  | bool (b : Bool)
  | str (s : String)
deriving DecidableEq, Repr

structure Intent where
  id : String
  category : IntentCategory
  description : String
  target_zones : List PolicyZone
  constraints : List (String × ConstraintVal)
  priority : Nat
deriving DecidableEq, Repr

structure FailureEvent where
  target : String
  failure_type : String
  start_time_s : Nat
  duration_s : Nat
  severity : ℚ := 1
deriving DecidableEq, Repr

structure BackgroundTraffic where
  id : String
  src : String
  dst : String
  start_time_s : ℚ
  duration_s : ℚ
  bitrate_mbps : ℚ
  flow_type : String
deriving DecidableEq, Repr

/-! ### PRNG model

Python's `random` module is a deterministic PRNG seeded by
`random.seed(seed)`; for the verified properties only purity and
the `[0,1)` range of `random.random()` matter, so we model it as a
linear-congruential stream over `Nat`. -/

def M31 : Nat := 2 ^ 31

def lcg (s : Nat) : Nat := (1103515245 * s + 12345) % M31

/-- Model of `random.random()`: a rational in `[0,1)` plus next state. -/
def randFloat (s : Nat) : ℚ × Nat := (((s % M31 : Nat) : ℚ) / ((M31 : Nat) : ℚ), lcg s)

/-- Model of `random.uniform(a, b)`. -/
def randUniform (a b : ℚ) (s : Nat) : ℚ × Nat :=
  let r := randFloat s
  (a + (b - a) * r.1, r.2)

/-- Model of `random.choice(l)` for string lists (`l` nonempty at all call
sites; the default is returned only for an empty list, where Python raises). -/
def randChoiceD (l : List String) (d : String) (s : Nat) : String × Nat :=
  (l.getD (s % M31 % l.length) d, lcg s)

/-- Model of `random.randint(a, b)` (inclusive bounds). -/
def randInt (a b : Nat) (s : Nat) : Nat × Nat :=
  (a + s % M31 % (b - a + 1), lcg s)

/-- The mutable state of one `ScenarioGenerator` instance, plus the PRNG
state (Python keeps it in the global `random` module, seeded in
`__init__`). -/
structure GenState where
  cameras : List Camera
  edge_servers : List EdgeServer
  cloud_endpoints : List CloudEndpoint
  network_links : List NetworkLink
  flows : List VideoFlow
  intents : List Intent
  background_traffic : List BackgroundTraffic
  failures : List FailureEvent
  rng : Nat
deriving DecidableEq, Repr

/-- `ScenarioGenerator.__init__(seed)`: empty lists, PRNG seeded. -/
def initState (seed : Nat) : GenState :=
  { cameras := [], edge_servers := [], cloud_endpoints := [], network_links := []
    flows := [], intents := [], background_traffic := [], failures := [], rng := seed }

/-! ### Topology -/

/-- `priority_map` inside `_add_terminal_cameras`. -/
def priority_map : PolicyZone → Nat
  | .PZ1_CRITICAL_SECURITY => 1
  | .PZ2_BOARDING_GATES => 2
  | .PZ3_PUBLIC_AREA => 3
  | .PZ4_VIP_RESTRICTED => 2
  | .PZ5_ARRIVAL_BAGGAGE => 3

/-- Zone-determined resolution/fps/bitrate (if/elif/else chain in
`_add_terminal_cameras`). -/
def camSpec (z : PolicyZone) : String × Nat × ℚ :=
  if z = .PZ1_CRITICAL_SECURITY then ("4K", 30, 25)
  else if z = .PZ2_BOARDING_GATES ∨ z = .PZ4_VIP_RESTRICTED then ("1080p", 30, 8)
  else ("1080p", 25, 6)

/-- Python's `f"{i:02d}"` for the camera index. -/
def twoDigits (i : Nat) : String :=
  if i < 10 then "0" ++ toString i else toString i

/-- `_add_terminal_cameras`: the batch of cameras appended for one call. -/
def addTerminalCameras (terminal area : String) (zone : PolicyZone) (count : Nat) :
    List Camera :=
  (List.range count).map (fun i =>
    { id := "cam_" ++ terminal ++ "_" ++ area ++ "_" ++ twoDigits i
      zone := zone
      location := terminal ++ "/" ++ area
      priority := priority_map zone
      resolution := (camSpec zone).1
      fps := (camSpec zone).2.1
      bitrate_mbps := (camSpec zone).2.2 })

/-- The 14 fixed camera batches of `generate_topology`. -/
def topoCameras : List Camera :=
  addTerminalCameras "TerminalA" "CheckIn" .PZ3_PUBLIC_AREA 8 ++
  addTerminalCameras "TerminalA" "Gates_A" .PZ2_BOARDING_GATES 10 ++
  addTerminalCameras "TerminalA" "VIP" .PZ4_VIP_RESTRICTED 3 ++
  addTerminalCameras "TerminalB" "CheckIn" .PZ3_PUBLIC_AREA 8 ++
  addTerminalCameras "TerminalB" "Gates_B" .PZ2_BOARDING_GATES 12 ++
  addTerminalCameras "TerminalB" "VIP" .PZ4_VIP_RESTRICTED 3 ++
  addTerminalCameras "TerminalC" "Gates_C" .PZ2_BOARDING_GATES 8 ++
  addTerminalCameras "TerminalC" "Baggage" .PZ5_ARRIVAL_BAGGAGE 6 ++
  addTerminalCameras "TerminalC" "Arrival" .PZ5_ARRIVAL_BAGGAGE 4 ++
  addTerminalCameras "Security" "Screening" .PZ1_CRITICAL_SECURITY 15 ++
  addTerminalCameras "Perimeter" "Fence" .PZ1_CRITICAL_SECURITY 20 ++
  addTerminalCameras "Perimeter" "Apron" .PZ1_CRITICAL_SECURITY 12 ++
  addTerminalCameras "Staff" "Corridors" .PZ1_CRITICAL_SECURITY 8 ++
  addTerminalCameras "Retail" "Shops" .PZ3_PUBLIC_AREA 10

/-- The fixed edge-server list assigned by `generate_topology`. -/
def topoEdgeServers : List EdgeServer :=
  [ { id := "edge_termA", location := "Terminal A", cpu_cores := 16, memory_gb := 64, network_bandwidth_gbps := 10 },
    { id := "edge_termB", location := "Terminal B", cpu_cores := 16, memory_gb := 64, network_bandwidth_gbps := 10 },
    { id := "edge_termC", location := "Terminal C", cpu_cores := 16, memory_gb := 64, network_bandwidth_gbps := 10 },
    { id := "edge_security", location := "Security Hub", cpu_cores := 32, memory_gb := 128, network_bandwidth_gbps := 25 },
    { id := "edge_perimeter", location := "Perimeter Control", cpu_cores := 16, memory_gb := 64, network_bandwidth_gbps := 10 },
    { id := "core_gateway", location := "Server Room", cpu_cores := 64, memory_gb := 128, network_bandwidth_gbps := 100 } ]

/-- The fixed cloud-endpoint list assigned by `generate_topology`. -/
def topoClouds : List CloudEndpoint :=
  [ { id := "cloud_primary", location := "Region-1", bandwidth_gbps := 100 },
    { id := "cloud_backup", location := "Region-2", bandwidth_gbps := 100 } ]

/-- `camera_to_edge_map.get(terminal, "edge_termA")` (the same table
appears in `_create_network_links` and `generate_flows`). -/
def camera_to_edge_map (terminal : String) : String :=
  if terminal = "TerminalA" then "edge_termA"
  else if terminal = "TerminalB" then "edge_termB"
  else if terminal = "TerminalC" then "edge_termC"
  else if terminal = "Security" then "edge_security"
  else if terminal = "Perimeter" then "edge_perimeter"
  else if terminal = "Staff" then "edge_security"
  else if terminal = "Retail" then "edge_termA"
  else "edge_termA"

/-- `cam.location.split('/')[0]`: the prefix of the location path before
the first slash (the whole string when no slash occurs). -/
def camTerminal (cam : Camera) : String :=
  String.mk (cam.location.toList.takeWhile (fun c => c ≠ '/'))

/-- The camera-to-edge link built for one camera in
`_create_network_links`. -/
def camLink (cam : Camera) : NetworkLink :=
  let terminal := camTerminal cam
  let edge := camera_to_edge_map terminal
  let is_outdoor := terminal = "Perimeter"
  { src := cam.id, dst := edge
    capacity_mbps := if is_outdoor then 300 else 1000
    latency_ms := if is_outdoor then 8 else 1
    packet_loss_rate := if is_outdoor then 1 / 200 else 1 / 10000
    stochastic := is_outdoor
    link_type := if is_outdoor then "wireless" else "wired" }

/-- `_create_network_links`: edge→gateway links, the two WAN links, then
one link per camera (in source order). -/
def createNetworkLinks (edges : List EdgeServer) (cams : List Camera) :
    List NetworkLink :=
  (edges.filter (fun e => e.id ≠ "core_gateway")).map
    (fun e => { src := e.id, dst := "core_gateway", capacity_mbps := 10000
                latency_ms := 1, packet_loss_rate := 0
                stochastic := false, link_type := "wired" }) ++
  [ { src := "core_gateway", dst := "cloud_primary", capacity_mbps := 1000
      latency_ms := 15, packet_loss_rate := 1 / 1000, stochastic := true, link_type := "wan" },
    { src := "core_gateway", dst := "cloud_backup", capacity_mbps := 1000
      latency_ms := 25, packet_loss_rate := 1 / 1000, stochastic := true, link_type := "wan" } ] ++
  cams.map camLink

/-- `generate_topology`: appends cameras and links, replaces edge servers
and cloud endpoints (no randomness). -/
def generate_topology (s : GenState) : GenState :=
  let cams := s.cameras ++ topoCameras
  { s with cameras := cams
           edge_servers := topoEdgeServers
           cloud_endpoints := topoClouds
           network_links := s.network_links ++ createNetworkLinks topoEdgeServers cams }

/-! ### Weather physics -/

/-- Per-link body of the loop in `apply_weather_physics`. -/
def weatherLink (w : String) (l : NetworkLink) : NetworkLink :=
  if l.stochastic then
    if l.link_type = "wireless" then
      if w = "rain" then
        { l with packet_loss_rate := 1 / 20, capacity_mbps := l.capacity_mbps * (8 / 10) }
      else if w = "storm" then
        { l with packet_loss_rate := 3 / 20, capacity_mbps := l.capacity_mbps * (6 / 10) }
      else l
    else if l.link_type = "wan" then
      if w = "storm" then
        { l with capacity_mbps := l.capacity_mbps * (7 / 10), latency_ms := l.latency_ms * (3 / 2) }
      else l
    else l
  else l

/-- `apply_weather_physics`: early return on `"clear"`, else mutate every
stochastic link in place. -/
def apply_weather_physics (w : String) (s : GenState) : GenState :=
  if w = "clear" then s
  else { s with network_links := s.network_links.map (weatherLink w) }

/-! ### Intents -/

/-- The fixed base set of six intents in `generate_intents`. -/
def baseIntents : List Intent :=
  [ { id := "SC1", category := .SAFETY_CRITICAL, description := "Sub-200ms latency for security"
      target_zones := [.PZ1_CRITICAL_SECURITY], constraints := [("max_latency", .nat 200)], priority := 1 },
    { id := "SC2", category := .SAFETY_CRITICAL, description := "Prioritize intrusion detection"
      target_zones := [.PZ1_CRITICAL_SECURITY], constraints := [("priority_boost", .bool true)], priority := 1 },
    { id := "CM1", category := .CROWD_MONITORING, description := "Optimize check-in density monitoring"
      target_zones := [.PZ3_PUBLIC_AREA], constraints := [("min_fps", .nat 15)], priority := 2 },
    { id := "CO1", category := .COST_OPTIMIZATION, description := "Minimize cloud egress cost"
      target_zones := allZones, constraints := [("max_cloud_ratio", .rat (3 / 10))], priority := 3 },
    { id := "NQ1", category := .NETWORK_QOS, description := "Limit packet loss < 1%"
      target_zones := allZones, constraints := [("max_loss", .rat (1 / 100))], priority := 2 },
    { id := "FT1", category := .FAULT_TOLERANCE, description := "Failover to nearest edge"
      target_zones := allZones, constraints := [("failover_enabled", .bool true)], priority := 1 } ]

/-- The `"peak"` context-aware intent CA1. -/
def intentCA1 : Intent :=
  { id := "CA1", category := .CONTEXT_AWARE, description := "Peak hour security boost"
    target_zones := [.PZ1_CRITICAL_SECURITY], constraints := [("bw_reservation", .str "50%")], priority := 1 }

/-- The `"emergency"` context-aware intent CA2. -/
def intentCA2 : Intent :=
  { id := "CA2", category := .CONTEXT_AWARE, description := "EMERGENCY: Max reliability"
    target_zones := allZones, constraints := [("override_cost", .bool true)], priority := 1 }

/-- `generate_intents`: resets `self.intents`, appends the six base
intents, then at most one context-dependent intent. -/
def generate_intents (time_context : String) (s : GenState) : GenState :=
  { s with intents :=
      baseIntents ++
      (if time_context = "peak" then [intentCA1]
       else if time_context = "emergency" then [intentCA2]
       else []) }

/-! ### Flows -/

/-- `analytics_map` (zone → analytics task). -/
def analytics_map : PolicyZone → String
  | .PZ1_CRITICAL_SECURITY => "intrusion"
  | .PZ2_BOARDING_GATES => "passenger_flow"
  | .PZ3_PUBLIC_AREA => "crowd_analytics"
  | .PZ4_VIP_RESTRICTED => "occupancy"
  | .PZ5_ARRIVAL_BAGGAGE => "baggage_tracking"

/-- `analytics_profile.get(task, default)`: (intensity, delay). -/
def analytics_profile (task : String) : ℚ × ℚ :=
  if task = "intrusion" then (8 / 10, 150)
  else if task = "crowd_analytics" then (4 / 10, 60)
  else if task = "passenger_flow" then (5 / 10, 80)
  else if task = "occupancy" then (1 / 10, 20)
  else if task = "baggage_tracking" then (6 / 10, 90)
  else (5 / 10, 50)

/-- Destination selection in `generate_flows` (consumes one random draw
only in the `random` branch). -/
def flowDest (strategy : String) (edges : List EdgeServer) (cam : Camera) (rng : Nat) :
    String × Nat :=
  let local_edge := camera_to_edge_map (camTerminal cam)
  if strategy = "all_edge" then (local_edge, rng)
  else if strategy = "all_cloud" then ("cloud_primary", rng)
  else if strategy = "critical_edge" then
    (if cam.zone = PolicyZone.PZ1_CRITICAL_SECURITY then local_edge else "cloud_primary", rng)
  else
    randChoiceD
      ((edges.filter (fun e => e.id ≠ "core_gateway")).map (fun e => e.id) ++ ["cloud_primary"])
      "cloud_primary" rng

/-- One loop iteration of `generate_flows` for a single camera. -/
def mkFlow (strategy : String) (edges : List EdgeServer) (cam : Camera) (rng : Nat) :
    VideoFlow × Nat :=
  let d := flowDest strategy edges cam rng
  let backup := if d.1 ≠ "cloud_primary" then "cloud_primary" else "edge_security"
  let task := analytics_map cam.zone
  let base_profile := analytics_profile task
  let j := randUniform (9 / 10) (11 / 10) d.2
  let final_intensity := min 1 (base_profile.1 * j.1)
  ({ id := "flow_" ++ cam.id, camera_id := cam.id, zone := cam.zone, source := cam.id
     destination := d.1, backup_destination := backup
     bitrate_mbps := cam.bitrate_mbps, priority := cam.priority
     analytics_type := task, compute_intensity := final_intensity
     processing_delay_ms := base_profile.2 }, j.2)

/-- The camera loop of `generate_flows`, threading the PRNG. -/
def flowsLoop (strategy : String) (edges : List EdgeServer) :
    List Camera → Nat → List VideoFlow × Nat
  | [], rng => ([], rng)
  | cam :: rest, rng =>
    let f := mkFlow strategy edges cam rng
    let fs := flowsLoop strategy edges rest f.2
    (f.1 :: fs.1, fs.2)

/-- `generate_flows`: resets `self.flows`, then one flow per camera. -/
def generate_flows (strategy : String) (s : GenState) : GenState :=
  let r := flowsLoop strategy s.edge_servers s.cameras s.rng
  { s with flows := r.1, rng := r.2 }

/-! ### Background traffic -/

/-- The per-iteration body of `generate_background_traffic`; `k` is the
remaining count, `i` the running index used in the flow id. -/
def bgLoop : Nat → Nat → Nat → List BackgroundTraffic × Nat
  | 0, _, rng => ([], rng)
  | k + 1, i, rng =>
    let c := randChoiceD ["edge_termA", "edge_termB", "edge_termC"] "edge_termA" rng
    let st := randInt 0 600 c.2
    let du := randInt 30 300 st.2
    let br := randUniform 5 20 du.2
    let rest := bgLoop k (i + 1) br.2
    ({ id := "bg_" ++ toString i, src := c.1, dst := "cloud_primary"
       start_time_s := (st.1 : ℚ), duration_s := (du.1 : ℚ)
       bitrate_mbps := br.1, flow_type := "TCP" } :: rest.1, rest.2)

/-- `generate_background_traffic`: resets the list, generates `num_flows`
flows from the three terminal edges to the primary cloud. -/
def generate_background_traffic (num_flows : Nat) (s : GenState) : GenState :=
  let r := bgLoop num_flows 0 s.rng
  { s with background_traffic := r.1, rng := r.2 }

/-! ### Failures -/

/-- The non-gateway edge ids (`[e.id for e in self.edge_servers if e.id != "core_gateway"]`). -/
def nonGatewayTargets (edges : List EdgeServer) : List String :=
  (edges.filter (fun e => e.id ≠ "core_gateway")).map (fun e => e.id)

/-- The random part of `generate_failures`: given edge servers and the
PRNG state, the produced failure list and new PRNG state. -/
def failuresDraw (edges : List EdgeServer) (rng : Nat) : List FailureEvent × Nat :=
  let roll := randFloat rng
  let targets := nonGatewayTargets edges
  if roll.1 > 17 / 20 then
    if targets = [] then ([], roll.2)
    else
      let e := randChoiceD targets "" roll.2
      let st := randInt 100 400 e.2
      ([{ target := e.1, failure_type := "shutdown", start_time_s := st.1
          duration_s := 120, severity := 1 }], st.2)
  else if roll.1 > 7 / 10 then
    let st := randInt 50 300 roll.2
    ([{ target := "core_gateway_cloud_primary", failure_type := "link_degradation"
        start_time_s := st.1, duration_s := 200, severity := 1 / 5 }], st.2)
  else if roll.1 > 13 / 20 then
    if 2 ≤ targets.length then
      ([{ target := targets.headD "", failure_type := "shutdown", start_time_s := 100
          duration_s := 60, severity := 1 },
        { target := targets.getLastD "", failure_type := "shutdown", start_time_s := 120
          duration_s := 60, severity := 1 }], roll.2)
    else ([], roll.2)
  else ([], roll.2)

/-- `generate_failures`: resets `self.failures`, then draws a failure
regime from one uniform roll. -/
def generate_failures (s : GenState) : GenState :=
  let r := failuresDraw s.edge_servers s.rng
  { s with failures := r.1, rng := r.2 }

/-! ### Export and call sequencing -/

/-- The structured document assembled by `export_scenario` (serialization
to JSON text is plumbing; the document's fields are modelled). -/
structure ScenarioDoc where
  scenario_id : Nat
  weather : String
  time_of_day : String
  cameras : List Camera
  edge_servers : List EdgeServer
  cloud_endpoints : List CloudEndpoint
  network_links : List NetworkLink
  flows : List VideoFlow
  background_traffic : List BackgroundTraffic
  intents : List Intent
  failures : List FailureEvent
deriving DecidableEq, Repr

/-- `export_scenario` (document construction part). -/
def export_scenario (scenario_id : Nat) (weather_context : String) (s : GenState) :
    ScenarioDoc :=
  { scenario_id := scenario_id
    weather := weather_context
    time_of_day := if s.background_traffic.length > 50 then "peak" else "off_peak"
    cameras := s.cameras, edge_servers := s.edge_servers
    cloud_endpoints := s.cloud_endpoints, network_links := s.network_links
    flows := s.flows, background_traffic := s.background_traffic
    intents := s.intents, failures := s.failures }

/-- One generation call on a `ScenarioGenerator` instance. -/
inductive GenCall where
  | topology
  | weather (w : String)
  | intents (time_context : String)
  | flows (strategy : String)
  | background (num_flows : Nat)
  | failures
deriving DecidableEq, Repr

/-- Dispatch one call to the corresponding generator method. -/
def stepCall (s : GenState) : GenCall → GenState
  | .topology => generate_topology s
  | .weather w => apply_weather_physics w s
  | .intents tc => generate_intents tc s
  | .flows strat => generate_flows strat s
  | .background n => generate_background_traffic n s
  | .failures => generate_failures s

/-- Drive a freshly seeded generator through a sequence of calls. -/
def runCalls (seed : Nat) (calls : List GenCall) : GenState :=
  calls.foldl stepCall (initState seed)

/-! ### Helper lemmas -/

lemma getD_mem_of_lt : ∀ (l : List String) (n : Nat) (d : String), n < l.length → l.getD n d ∈ l := by
  intro l
  induction l with
  | nil => intro n d h; simp at h
  | cons a t ih =>
    intro n d h
    cases n with
    | zero => exact List.mem_cons_self a t
    | succ m =>
      have hm : m < t.length := by simpa using h
      exact List.mem_cons_of_mem a (ih m d hm)

lemma getD_mem_or_eq : ∀ (l : List String) (n : Nat) (d : String), l.getD n d ∈ l ∨ l.getD n d = d := by
  intro l n d
  by_cases h : n < l.length
  · exact Or.inl (getD_mem_of_lt l n d h)
  · right
    have hn : l[n]? = none := List.getElem?_eq_none (Nat.le_of_not_lt h)
    simp [List.getD, hn]

lemma randChoiceD_mem (l : List String) (d : String) (s : Nat) (h : l ≠ []) :
    (randChoiceD l d s).1 ∈ l := by
  have hlen : 0 < l.length := List.length_pos.2 h
  exact getD_mem_of_lt l _ d (Nat.mod_lt _ hlen)

lemma headD_mem (l : List String) (d : String) (h : l ≠ []) : l.headD d ∈ l := by
  cases l with
  | nil => exact absurd rfl h
  | cons a t => simp

lemma getLastD_mem : ∀ (l : List String) (d : String), l ≠ [] → l.getLastD d ∈ l := by
  intro l
  induction l with
  | nil => intro d h; exact absurd rfl h
  | cons a t ih =>
    intro d _
    cases t with
    | nil => simp [List.getLastD]
    | cons b u =>
      have : (a :: b :: u).getLastD d = (b :: u).getLastD a := by
        simp [List.getLastD]
      rw [this]
      exact List.mem_cons_of_mem a (ih a (by simp))

lemma randFloat_nonneg (s : Nat) : 0 ≤ (randFloat s).1 := by
  unfold randFloat
  positivity

lemma randFloat_lt_one (s : Nat) : (randFloat s).1 < 1 := by
  unfold randFloat
  have hpos : (0 : ℚ) < ((M31 : Nat) : ℚ) := by norm_num [M31]
  rw [div_lt_one hpos]
  exact_mod_cast Nat.mod_lt s (by norm_num [M31])

lemma camera_to_edge_map_mem (t : String) :
    camera_to_edge_map t ∈
      ["edge_termA", "edge_termB", "edge_termC", "edge_security", "edge_perimeter"] := by
  unfold camera_to_edge_map
  split_ifs <;> simp

lemma camera_to_edge_map_ne_gateway (t : String) : camera_to_edge_map t ≠ "core_gateway" := by
  have h := camera_to_edge_map_mem t
  intro he
  rw [he] at h
  simp at h

lemma flowDest_ne_gateway (strategy : String) (edges : List EdgeServer) (cam : Camera)
    (rng : Nat) : (flowDest strategy edges cam rng).1 ≠ "core_gateway" := by
  unfold flowDest
  split_ifs with h1 h2 h3 h4
  · exact camera_to_edge_map_ne_gateway _
  · simp
  · exact camera_to_edge_map_ne_gateway _
  · simp
  · show (randChoiceD
        ((edges.filter (fun e => e.id ≠ "core_gateway")).map (fun e => e.id) ++ ["cloud_primary"])
        "cloud_primary" rng).1 ≠ "core_gateway"
    rcases getD_mem_or_eq
        ((edges.filter (fun e => e.id ≠ "core_gateway")).map (fun e => e.id) ++ ["cloud_primary"])
        (rng % M31 %
          ((edges.filter (fun e => e.id ≠ "core_gateway")).map (fun e => e.id) ++
            ["cloud_primary"]).length)
        "cloud_primary" with hm | he
    · intro hgw
      rw [show (randChoiceD
          ((edges.filter (fun e => e.id ≠ "core_gateway")).map (fun e => e.id) ++
            ["cloud_primary"]) "cloud_primary" rng).1 =
          ((edges.filter (fun e => e.id ≠ "core_gateway")).map (fun e => e.id) ++
            ["cloud_primary"]).getD
            (rng % M31 %
              ((edges.filter (fun e => e.id ≠ "core_gateway")).map (fun e => e.id) ++
                ["cloud_primary"]).length) "cloud_primary" from rfl] at hgw
      rw [hgw] at hm
      rcases List.mem_append.1 hm with hm1 | hm2
      · obtain ⟨e, he1, heq⟩ := List.mem_map.1 hm1
        have hne := (List.mem_filter.1 he1).2
        simp only [ne_eq, decide_not, Bool.not_eq_true', decide_eq_false_iff_not] at hne
        exact hne heq
      · simp at hm2
    · intro hgw
      rw [show (randChoiceD
          ((edges.filter (fun e => e.id ≠ "core_gateway")).map (fun e => e.id) ++
            ["cloud_primary"]) "cloud_primary" rng).1 =
          ((edges.filter (fun e => e.id ≠ "core_gateway")).map (fun e => e.id) ++
            ["cloud_primary"]).getD
            (rng % M31 %
              ((edges.filter (fun e => e.id ≠ "core_gateway")).map (fun e => e.id) ++
                ["cloud_primary"]).length) "cloud_primary" from rfl, he] at hgw
      simp at hgw

lemma mem_flowsLoop (strategy : String) (edges : List EdgeServer) :
    ∀ (cams : List Camera) (rng : Nat) (f : VideoFlow),
      f ∈ (flowsLoop strategy edges cams rng).1 →
      ∃ cam rng0, cam ∈ cams ∧ f = (mkFlow strategy edges cam rng0).1 := by
  intro cams
  induction cams with
  | nil => intro rng f h; simp [flowsLoop] at h
  | cons cam rest ih =>
    intro rng f h
    simp only [flowsLoop, List.mem_cons] at h
    rcases h with h | h
    · exact ⟨cam, rng, List.mem_cons_self _ _, h⟩
    · obtain ⟨c, r0, hc, hf⟩ := ih _ f h
      exact ⟨c, r0, List.mem_cons_of_mem _ hc, hf⟩

lemma flowsLoop_length (strategy : String) (edges : List EdgeServer) :
    ∀ (cams : List Camera) (rng : Nat),
      (flowsLoop strategy edges cams rng).1.length = cams.length := by
  intro cams
  induction cams with
  | nil => intro rng; rfl
  | cons cam rest ih => intro rng; simp [flowsLoop, ih]

lemma flowsLoop_forall₂ (strategy : String) (edges : List EdgeServer)
    (R : Camera → VideoFlow → Prop)
    (hR : ∀ cam rng, R cam (mkFlow strategy edges cam rng).1) :
    ∀ (cams : List Camera) (rng : Nat),
      List.Forall₂ R cams (flowsLoop strategy edges cams rng).1 := by
  intro cams
  induction cams with
  | nil => intro rng; exact List.Forall₂.nil
  | cons cam rest ih => intro rng; exact List.Forall₂.cons (hR cam rng) (ih _)

lemma mkFlow_destination (strategy : String) (edges : List EdgeServer) (cam : Camera)
    (rng : Nat) :
    (mkFlow strategy edges cam rng).1.destination = (flowDest strategy edges cam rng).1 := rfl

lemma mkFlow_backup (strategy : String) (edges : List EdgeServer) (cam : Camera) (rng : Nat) :
    (mkFlow strategy edges cam rng).1.backup_destination =
      (if (flowDest strategy edges cam rng).1 ≠ "cloud_primary" then "cloud_primary"
       else "edge_security") := rfl

/-! ### Claim theorems -/

/-- C1: for every placement strategy and every flow produced by
`generate_flows`, the destination is never the core gateway, the
destination differs from the backup destination, and the backup is the
primary cloud exactly when the destination is not the primary cloud
(otherwise the security edge). -/
theorem C1_flow_destination_invariants (strategy : String) (s : GenState) (f : VideoFlow)
    (hf : f ∈ (generate_flows strategy s).flows) :
    f.destination ≠ "core_gateway" ∧
    f.destination ≠ f.backup_destination ∧
    f.backup_destination =
      (if f.destination ≠ "cloud_primary" then "cloud_primary" else "edge_security") := by
  have hf' : f ∈ (flowsLoop strategy s.edge_servers s.cameras s.rng).1 := hf
  obtain ⟨cam, rng0, _, rfl⟩ := mem_flowsLoop strategy s.edge_servers s.cameras s.rng f hf'
  rw [mkFlow_destination, mkFlow_backup]
  refine ⟨flowDest_ne_gateway strategy s.edge_servers cam rng0, ?_, rfl⟩
  by_cases hd : (flowDest strategy s.edge_servers cam rng0).1 = "cloud_primary"
  · rw [if_neg (by simpa using hd), hd]
    simp
  · rw [if_pos hd]
    exact hd

/-- Concrete camera used for witness states (a security screening camera
exactly as `generate_topology` builds it). -/
def camA : Camera :=
  { id := "cam_Security_Screening_00", zone := .PZ1_CRITICAL_SECURITY
    location := "Security/Screening", priority := 1, resolution := "4K"
    fps := 30, bitrate_mbps := 25 }

/-- Witness state: a generator holding one camera and the standard edge
servers. -/
def wState1 : GenState :=
  { initState 0 with cameras := [camA], edge_servers := topoEdgeServers }

/-- The single flow generated from `wState1` under `all_edge`. -/
def flowA : VideoFlow := (mkFlow "all_edge" topoEdgeServers camA 0).1

/-- Witness for C1 at a concrete strategy, state, and flow. -/
theorem C1_flow_destination_invariants_witness :
    flowA.destination ≠ "core_gateway" ∧
    flowA.destination ≠ flowA.backup_destination ∧
    flowA.backup_destination =
      (if flowA.destination ≠ "cloud_primary" then "cloud_primary" else "edge_security") :=
  C1_flow_destination_invariants "all_edge" wState1 flowA
    (List.mem_singleton.2 rfl)

/-- C6: `generate_flows` produces exactly one flow per camera (in order),
with `camera_id`, bitrate, and priority copied from the source camera,
for every placement strategy. -/
theorem C6_one_flow_per_camera (strategy : String) (s : GenState) :
    (generate_flows strategy s).flows.length = s.cameras.length ∧
    List.Forall₂
      (fun cam f => f.camera_id = cam.id ∧ f.bitrate_mbps = cam.bitrate_mbps ∧
        f.priority = cam.priority)
      s.cameras (generate_flows strategy s).flows := by
  constructor
  · exact flowsLoop_length strategy s.edge_servers s.cameras s.rng
  · exact flowsLoop_forall₂ strategy s.edge_servers _
      (fun cam rng => ⟨rfl, rfl, rfl⟩) s.cameras s.rng

/-- C7: `generate_intents` always produces the fixed six base intents,
plus exactly the peak-hour boost for `"peak"`, exactly the emergency
override for `"emergency"` (both CONTEXT_AWARE), and nothing extra for
`"off_peak"`; lengths are 7, 7, and 6. -/
theorem C7_intent_sets (s : GenState) :
    (generate_intents "peak" s).intents = baseIntents ++ [intentCA1] ∧
    (generate_intents "emergency" s).intents = baseIntents ++ [intentCA2] ∧
    (generate_intents "off_peak" s).intents = baseIntents ∧
    baseIntents.length = 6 ∧
    (generate_intents "peak" s).intents.length = 7 ∧
    (generate_intents "emergency" s).intents.length = 7 ∧
    (generate_intents "off_peak" s).intents.length = 6 ∧
    intentCA1.category = IntentCategory.CONTEXT_AWARE ∧
    intentCA2.category = IntentCategory.CONTEXT_AWARE := by
  refine ⟨rfl, ?_, ?_, rfl, rfl, ?_, ?_, rfl, rfl⟩ <;>
    simp [generate_intents, baseIntents]

lemma nonGatewayTargets_ne (edges : List EdgeServer) :
    ∀ t ∈ nonGatewayTargets edges, t ≠ "core_gateway" := by
  intro t ht
  obtain ⟨e, he, rfl⟩ := List.mem_map.1 ht
  have hne := (List.mem_filter.1 he).2
  simpa using hne

lemma headD_ne_getLastD_of_nodup (l : List String) (h2 : 2 ≤ l.length) (hn : l.Nodup) :
    l.headD "" ≠ l.getLastD "" := by
  match l, h2 with
  | a :: b :: u, _ =>
    have hlast : (a :: b :: u).getLastD "" = (b :: u).getLastD a := by
      simp [List.getLastD]
    have hmem : (b :: u).getLastD a ∈ b :: u := getLastD_mem (b :: u) a (by simp)
    have hnotin : a ∉ b :: u := (List.nodup_cons.1 hn).1
    intro he
    rw [List.headD_cons, hlast] at he
    exact hnotin (he ▸ hmem)

lemma failuresDraw_no_gateway_shutdown (edges : List EdgeServer) (rng : Nat) :
    ∀ ev ∈ (failuresDraw edges rng).1, ev.failure_type = "shutdown" →
      ev.target ≠ "core_gateway" := by
  intro ev hev hsh
  simp only [failuresDraw] at hev
  split_ifs at hev with h1 h2 h3 h4 h5
  · simp at hev
  · simp only [List.mem_singleton] at hev
    subst hev
    exact nonGatewayTargets_ne edges _ (randChoiceD_mem _ "" _ h2)
  · simp only [List.mem_singleton] at hev
    subst hev
    simp
  · simp only [List.mem_cons, List.mem_singleton] at hev
    have hne : nonGatewayTargets edges ≠ [] := by
      intro h0
      rw [h0] at h5
      simp at h5
    rcases hev with hev | hev | hev
    · subst hev
      exact nonGatewayTargets_ne edges _ (headD_mem _ "" hne)
    · subst hev
      exact nonGatewayTargets_ne edges _ (getLastD_mem _ "" hne)
    · exact absurd hev (by simp)
  · simp at hev
  · simp at hev

/-- C2: `generate_failures` selects the failure regime from one uniform
roll r: r > 0.85 yields one shutdown (severity 1, duration 120) of a
non-gateway edge; 0.70 < r ≤ 0.85 yields one link degradation of the
core-gateway-to-primary-cloud link (severity 0.2, duration 200);
0.65 < r ≤ 0.70 yields two shutdowns of the first and last non-gateway
edges with staggered starts 100 and 120, each severity 1; r ≤ 0.65
yields no event; and a shutdown never targets the core gateway. -/
theorem C2_failure_regimes (s : GenState) :
    ((randFloat s.rng).1 > 17 / 20 → nonGatewayTargets s.edge_servers ≠ [] →
      ∃ tgt ∈ nonGatewayTargets s.edge_servers, ∃ st : Nat,
        (generate_failures s).failures =
          [{ target := tgt, failure_type := "shutdown", start_time_s := st
             duration_s := 120, severity := 1 }]) ∧
    ((randFloat s.rng).1 > 7 / 10 → (randFloat s.rng).1 ≤ 17 / 20 →
      ∃ st : Nat,
        (generate_failures s).failures =
          [{ target := "core_gateway_cloud_primary", failure_type := "link_degradation"
             start_time_s := st, duration_s := 200, severity := 1 / 5 }]) ∧
    ((randFloat s.rng).1 > 13 / 20 → (randFloat s.rng).1 ≤ 7 / 10 →
      2 ≤ (nonGatewayTargets s.edge_servers).length →
      (generate_failures s).failures =
        [{ target := (nonGatewayTargets s.edge_servers).headD "", failure_type := "shutdown"
           start_time_s := 100, duration_s := 60, severity := 1 },
         { target := (nonGatewayTargets s.edge_servers).getLastD "", failure_type := "shutdown"
           start_time_s := 120, duration_s := 60, severity := 1 }] ∧
      ((nonGatewayTargets s.edge_servers).Nodup →
        (nonGatewayTargets s.edge_servers).headD "" ≠
          (nonGatewayTargets s.edge_servers).getLastD "")) ∧
    ((randFloat s.rng).1 ≤ 13 / 20 → (generate_failures s).failures = []) ∧
    (∀ ev ∈ (generate_failures s).failures, ev.failure_type = "shutdown" →
      ev.target ≠ "core_gateway") ∧
    (∀ t ∈ nonGatewayTargets s.edge_servers, t ≠ "core_gateway") := by
  refine ⟨?_, ?_, ?_, ?_, ?_, nonGatewayTargets_ne s.edge_servers⟩
  · intro h1 h2
    have hfail : (generate_failures s).failures =
        [{ target := (randChoiceD (nonGatewayTargets s.edge_servers) "" (randFloat s.rng).2).1
           failure_type := "shutdown"
           start_time_s := (randInt 100 400
             (randChoiceD (nonGatewayTargets s.edge_servers) "" (randFloat s.rng).2).2).1
           duration_s := 120, severity := 1 }] := by
      show (failuresDraw s.edge_servers s.rng).1 = _
      simp only [failuresDraw]
      rw [if_pos h1, if_neg h2]
    exact ⟨_, randChoiceD_mem _ "" _ h2, _, hfail⟩
  · intro h1 h2
    refine ⟨(randInt 50 300 (randFloat s.rng).2).1, ?_⟩
    show (failuresDraw s.edge_servers s.rng).1 = _
    simp only [failuresDraw]
    rw [if_neg (not_lt.2 h2), if_pos h1]
  · intro h1 h2 h3
    refine ⟨?_, fun hn => headD_ne_getLastD_of_nodup _ h3 hn⟩
    show (failuresDraw s.edge_servers s.rng).1 = _
    simp only [failuresDraw]
    rw [if_neg (not_lt.2 (le_trans h2 (by norm_num))), if_neg (not_lt.2 h2), if_pos h1,
      if_pos h3]
  · intro h1
    show (failuresDraw s.edge_servers s.rng).1 = _
    simp only [failuresDraw]
    rw [if_neg (not_lt.2 (le_trans h1 (by norm_num))),
      if_neg (not_lt.2 (le_trans h1 (by norm_num))), if_neg (not_lt.2 h1)]
  · exact failuresDraw_no_gateway_shutdown s.edge_servers s.rng

/-- Witness state for C2: standard edge servers and a PRNG state whose
first roll lands in the single-shutdown regime. -/
def wStateC2 : GenState := { initState 1900000000 with edge_servers := topoEdgeServers }

/-- Witness for C2 at a concrete state in the r > 0.85 regime. -/
theorem C2_failure_regimes_witness :
    ∃ tgt ∈ nonGatewayTargets wStateC2.edge_servers, ∃ st : Nat,
      (generate_failures wStateC2).failures =
        [{ target := tgt, failure_type := "shutdown", start_time_s := st
           duration_s := 120, severity := 1 }] :=
  (C2_failure_regimes wStateC2).1 (by norm_num [randFloat, M31, wStateC2, initState])
    (by decide)

/-- C4: two generator instances with the same seed, driven through the
same call sequence, end in identical states and export identical
documents. -/
theorem C4_determinism (seed1 seed2 : Nat) (calls1 calls2 : List GenCall)
    (sid : Nat) (w : String) (h1 : seed1 = seed2) (h2 : calls1 = calls2) :
    runCalls seed1 calls1 = runCalls seed2 calls2 ∧
    export_scenario sid w (runCalls seed1 calls1) =
      export_scenario sid w (runCalls seed2 calls2) := by
  subst h1
  subst h2
  exact ⟨rfl, rfl⟩

/-- Witness for C4 at concrete seeds and call sequences. -/
theorem C4_determinism_witness :
    runCalls 42 [GenCall.topology, GenCall.weather "storm", GenCall.intents "peak",
        GenCall.flows "all_edge", GenCall.background 3, GenCall.failures] =
      runCalls 42 [GenCall.topology, GenCall.weather "storm", GenCall.intents "peak",
        GenCall.flows "all_edge", GenCall.background 3, GenCall.failures] ∧
    export_scenario 0 "storm"
        (runCalls 42 [GenCall.topology, GenCall.weather "storm", GenCall.intents "peak",
          GenCall.flows "all_edge", GenCall.background 3, GenCall.failures]) =
      export_scenario 0 "storm"
        (runCalls 42 [GenCall.topology, GenCall.weather "storm", GenCall.intents "peak",
          GenCall.flows "all_edge", GenCall.background 3, GenCall.failures]) :=
  C4_determinism 42 42 _ _ 0 "storm" rfl rfl

lemma weatherLink_nonstochastic (w : String) (l : NetworkLink) (hl : l.stochastic = false) :
    weatherLink w l = l := by
  unfold weatherLink
  rw [hl]
  simp

lemma forall₂_weatherLink (w : String) :
    ∀ ls : List NetworkLink,
      List.Forall₂ (fun old new => old.stochastic = false → new = old)
        ls (ls.map (weatherLink w)) := by
  intro ls
  induction ls with
  | nil => exact List.Forall₂.nil
  | cons l t ih =>
    exact List.Forall₂.cons (fun hl => weatherLink_nonstochastic w l hl) ih

/-- C9: applying `"clear"` weather is the identity on the whole state,
and any weather application touches only the stochastic links: every
non-stochastic link and every non-link component of the state is
unchanged. -/
theorem C9_weather_frame (w : String) (s : GenState) :
    apply_weather_physics "clear" s = s ∧
    (apply_weather_physics w s).cameras = s.cameras ∧
    (apply_weather_physics w s).edge_servers = s.edge_servers ∧
    (apply_weather_physics w s).cloud_endpoints = s.cloud_endpoints ∧
    (apply_weather_physics w s).flows = s.flows ∧
    (apply_weather_physics w s).intents = s.intents ∧
    (apply_weather_physics w s).background_traffic = s.background_traffic ∧
    (apply_weather_physics w s).failures = s.failures ∧
    (apply_weather_physics w s).rng = s.rng ∧
    (∀ l : NetworkLink, l.stochastic = false → weatherLink w l = l) ∧
    List.Forall₂ (fun old new => old.stochastic = false → new = old)
      s.network_links (apply_weather_physics w s).network_links := by
  refine ⟨by simp [apply_weather_physics], ?_⟩
  by_cases hw : w = "clear"
  · subst hw
    exact ⟨rfl, rfl, rfl, rfl, rfl, rfl, rfl, rfl,
      fun l hl => weatherLink_nonstochastic "clear" l hl,
      List.forall₂_same.2 (fun x _ _ => rfl)⟩
  · have happ : apply_weather_physics w s =
        { s with network_links := s.network_links.map (weatherLink w) } := by
      unfold apply_weather_physics
      rw [if_neg hw]
    rw [happ]
    exact ⟨rfl, rfl, rfl, rfl, rfl, rfl, rfl, rfl,
      fun l hl => weatherLink_nonstochastic w l hl,
      forall₂_weatherLink w s.network_links⟩

/-- A concrete non-stochastic (wired) link as the topology builds it. -/
def wLinkEdgeA : NetworkLink :=
  { src := "edge_termA", dst := "core_gateway", capacity_mbps := 10000
    latency_ms := 1, packet_loss_rate := 0, stochastic := false, link_type := "wired" }

/-- Witness for C9 at a concrete state, weather, and wired link. -/
theorem C9_weather_frame_witness :
    apply_weather_physics "clear" wState1 = wState1 ∧
    weatherLink "storm" wLinkEdgeA = wLinkEdgeA := by
  have h := C9_weather_frame "storm" wState1
  exact ⟨h.1, h.2.2.2.2.2.2.2.2.2.1 wLinkEdgeA rfl⟩

lemma createNetworkLinks_mono (E : List EdgeServer) (C C' : List Camera) :
    ∀ lk ∈ createNetworkLinks E C, lk ∈ createNetworkLinks E (C ++ C') := by
  intro lk h
  unfold createNetworkLinks at h ⊢
  rw [List.map_append]
  rcases List.mem_append.1 h with h1 | h2
  · exact List.mem_append.2 (Or.inl h1)
  · exact List.mem_append.2 (Or.inr (List.mem_append.2 (Or.inl h2)))

/-- C10: the intent, flow, background-traffic, and failure generators
replace their output lists (the previous list content does not affect the
result), the flow count equals the camera count, while
`generate_topology` appends cameras and network links without clearing:
a second call duplicates every camera (the camera list becomes the fixed
batch twice) and re-emits every first-call link in the appended batch,
whereas edge servers and cloud endpoints are replaced, not duplicated. -/
theorem C10_reset_and_append (s : GenState) (tc strategy : String) (n : Nat)
    (lI : List Intent) (lF : List VideoFlow) (lB : List BackgroundTraffic)
    (lE : List FailureEvent) (seed : Nat) :
    generate_intents tc { s with intents := lI } = generate_intents tc s ∧
    generate_flows strategy { s with flows := lF } = generate_flows strategy s ∧
    generate_background_traffic n { s with background_traffic := lB } =
      generate_background_traffic n s ∧
    generate_failures { s with failures := lE } = generate_failures s ∧
    (generate_flows strategy s).flows.length = s.cameras.length ∧
    (generate_topology s).cameras = s.cameras ++ topoCameras ∧
    (generate_topology (initState seed)).cameras = topoCameras ∧
    (generate_topology (generate_topology (initState seed))).cameras =
      topoCameras ++ topoCameras ∧
    (generate_topology (generate_topology (initState seed))).edge_servers =
      (generate_topology (initState seed)).edge_servers ∧
    (generate_topology (generate_topology (initState seed))).cloud_endpoints =
      (generate_topology (initState seed)).cloud_endpoints ∧
    (generate_topology (generate_topology (initState seed))).network_links =
      (generate_topology (initState seed)).network_links ++
        createNetworkLinks topoEdgeServers (topoCameras ++ topoCameras) ∧
    (∀ lk ∈ (generate_topology (initState seed)).network_links,
      lk ∈ createNetworkLinks topoEdgeServers (topoCameras ++ topoCameras)) :=
  ⟨rfl, rfl, rfl, rfl, flowsLoop_length strategy s.edge_servers s.cameras s.rng,
   rfl, rfl, rfl, rfl, rfl, rfl,
   fun lk h => createNetworkLinks_mono topoEdgeServers topoCameras topoCameras lk h⟩

/-- Witness for C10: a concrete first-call link re-appears in the batch
appended by a second `generate_topology` call. -/
theorem C10_reset_and_append_witness :
    wLinkEdgeA ∈ createNetworkLinks topoEdgeServers (topoCameras ++ topoCameras) := by
  have h := C10_reset_and_append (initState 0) "peak" "all_edge" 1 [] [] [] [] 0
  exact h.2.2.2.2.2.2.2.2.2.2.2 wLinkEdgeA (by decide)

/-- The topology's core-gateway-to-primary-cloud WAN link (exactly the
literal built in `_create_network_links`). -/
def wLinkWanPrimary : NetworkLink :=
  { src := "core_gateway", dst := "cloud_primary", capacity_mbps := 1000
    latency_ms := 15, packet_loss_rate := 1 / 1000, stochastic := true, link_type := "wan" }

/-- The topology's core-gateway-to-backup-cloud WAN link. -/
def wLinkWanBackup : NetworkLink :=
  { src := "core_gateway", dst := "cloud_backup", capacity_mbps := 1000
    latency_ms := 25, packet_loss_rate := 1 / 1000, stochastic := true, link_type := "wan" }

/-- C5: in a freshly built topology every link's `src` and `dst` name an
existing camera, edge server, or cloud endpoint, and a link is stochastic
exactly when its type is wireless or wan. -/
theorem C5_link_referential_integrity (seed : Nat) :
    ∀ lk ∈ (generate_topology (initState seed)).network_links,
      (lk.src ∈ (generate_topology (initState seed)).cameras.map Camera.id ++
          ((generate_topology (initState seed)).edge_servers.map EdgeServer.id ++
           (generate_topology (initState seed)).cloud_endpoints.map CloudEndpoint.id) ∧
       lk.dst ∈ (generate_topology (initState seed)).cameras.map Camera.id ++
          ((generate_topology (initState seed)).edge_servers.map EdgeServer.id ++
           (generate_topology (initState seed)).cloud_endpoints.map CloudEndpoint.id)) ∧
      (lk.stochastic = true ↔ (lk.link_type = "wireless" ∨ lk.link_type = "wan")) := by
  intro lk hlk
  have hcams : (generate_topology (initState seed)).cameras = topoCameras := rfl
  have hedges : (generate_topology (initState seed)).edge_servers = topoEdgeServers := rfl
  have hclouds : (generate_topology (initState seed)).cloud_endpoints = topoClouds := rfl
  have hlinks : (generate_topology (initState seed)).network_links =
      createNetworkLinks topoEdgeServers topoCameras := rfl
  rw [hcams, hedges, hclouds]
  rw [hlinks] at hlk
  unfold createNetworkLinks at hlk
  rcases List.mem_append.1 hlk with h12 | hcam
  · rcases List.mem_append.1 h12 with hA | hW
    · obtain ⟨e, he, rfl⟩ := List.mem_map.1 hA
      have heMem : e ∈ topoEdgeServers := List.mem_of_mem_filter he
      refine ⟨⟨?_, ?_⟩, ?_⟩
      · exact List.mem_append.2 (Or.inr (List.mem_append.2 (Or.inl
          (List.mem_map_of_mem EdgeServer.id heMem))))
      · refine List.mem_append.2 (Or.inr (List.mem_append.2 (Or.inl ?_)))
        show ("core_gateway" : String) ∈ topoEdgeServers.map EdgeServer.id
        decide
      · constructor
        · intro h
          exact absurd (show (false : Bool) = true from h) (by decide)
        · intro h
          rcases h with h | h
          · exact absurd (show ("wired" : String) = "wireless" from h) (by decide)
          · exact absurd (show ("wired" : String) = "wan" from h) (by decide)
    · have hW2 : lk = wLinkWanPrimary ∨ lk = wLinkWanBackup := by
        simpa [wLinkWanPrimary, wLinkWanBackup] using hW
      rcases hW2 with rfl | rfl
      · exact ⟨⟨by decide, by decide⟩, by decide⟩
      · exact ⟨⟨by decide, by decide⟩, by decide⟩
  · obtain ⟨cam, hc, rfl⟩ := List.mem_map.1 hcam
    refine ⟨⟨?_, ?_⟩, ?_⟩
    · exact List.mem_append.2 (Or.inl (List.mem_map_of_mem Camera.id hc))
    · refine List.mem_append.2 (Or.inr (List.mem_append.2 (Or.inl ?_)))
      have h5 := camera_to_edge_map_mem (camTerminal cam)
      have hsub : ∀ x ∈ ["edge_termA", "edge_termB", "edge_termC", "edge_security",
          "edge_perimeter"], x ∈ topoEdgeServers.map EdgeServer.id := by decide
      exact hsub _ h5
    · by_cases ho : camTerminal cam = "Perimeter"
      · simp [camLink, ho]
      · simp [camLink, ho]

/-- Witness for C5 at a concrete link of the fresh topology. -/
theorem C5_link_referential_integrity_witness :
    (wLinkWanPrimary.src ∈ (generate_topology (initState 0)).cameras.map Camera.id ++
        ((generate_topology (initState 0)).edge_servers.map EdgeServer.id ++
         (generate_topology (initState 0)).cloud_endpoints.map CloudEndpoint.id) ∧
     wLinkWanPrimary.dst ∈ (generate_topology (initState 0)).cameras.map Camera.id ++
        ((generate_topology (initState 0)).edge_servers.map EdgeServer.id ++
         (generate_topology (initState 0)).cloud_endpoints.map CloudEndpoint.id)) ∧
    (wLinkWanPrimary.stochastic = true ↔
      (wLinkWanPrimary.link_type = "wireless" ∨ wLinkWanPrimary.link_type = "wan")) :=
  C5_link_referential_integrity 0 wLinkWanPrimary (by
    show wLinkWanPrimary ∈ createNetworkLinks topoEdgeServers topoCameras
    unfold createNetworkLinks
    exact List.mem_append.2 (Or.inl (List.mem_append.2 (Or.inr
      (List.mem_cons_self _ _)))))

lemma weatherLink_wireless (l : NetworkLink) (hs : l.stochastic = true)
    (ht : l.link_type = "wireless") :
    weatherLink "rain" l =
      { l with packet_loss_rate := 1 / 20
               capacity_mbps := l.capacity_mbps * (8 / 10) } ∧
    weatherLink "storm" l =
      { l with packet_loss_rate := 3 / 20
               capacity_mbps := l.capacity_mbps * (6 / 10) } := by
  constructor <;> simp [weatherLink, hs, ht]

lemma weatherLink_wan (l : NetworkLink) (hs : l.stochastic = true)
    (ht : l.link_type = "wan") :
    weatherLink "storm" l =
      { l with capacity_mbps := l.capacity_mbps * (7 / 10)
               latency_ms := l.latency_ms * (3 / 2) } ∧
    weatherLink "rain" l = l := by
  constructor <;> simp [weatherLink, hs, ht]

/-- C3: on a freshly built topology, weather acts on stochastic links as
follows — wireless links: rain sets loss to 0.05 and scales capacity by
0.8 (base 300 becomes 240), storm sets loss to 0.15 and scales capacity
by 0.6; WAN links: storm scales capacity by 0.7 (base 1000 becomes 700)
and latency by 1.5 (base 15 becomes 22.5 on the primary link), while
rain leaves WAN links unchanged. -/
theorem C3_weather_physics_numbers (seed : Nat) :
    (∀ w : String, w ≠ "clear" →
      (apply_weather_physics w (generate_topology (initState seed))).network_links =
        (generate_topology (initState seed)).network_links.map (weatherLink w)) ∧
    ∀ lk ∈ (generate_topology (initState seed)).network_links, lk.stochastic = true →
      ((lk.link_type = "wireless" →
        weatherLink "rain" lk =
          { lk with packet_loss_rate := 1 / 20
                    capacity_mbps := lk.capacity_mbps * (8 / 10) } ∧
        lk.capacity_mbps = 300 ∧ (weatherLink "rain" lk).capacity_mbps = 240 ∧
        weatherLink "storm" lk =
          { lk with packet_loss_rate := 3 / 20
                    capacity_mbps := lk.capacity_mbps * (6 / 10) }) ∧
       (lk.link_type = "wan" →
        weatherLink "storm" lk =
          { lk with capacity_mbps := lk.capacity_mbps * (7 / 10)
                    latency_ms := lk.latency_ms * (3 / 2) } ∧
        weatherLink "rain" lk = lk ∧
        lk.capacity_mbps = 1000 ∧ (weatherLink "storm" lk).capacity_mbps = 700 ∧
        (lk.dst = "cloud_primary" →
          lk.latency_ms = 15 ∧ (weatherLink "storm" lk).latency_ms = 45 / 2))) := by
  constructor
  · intro w hw
    unfold apply_weather_physics
    rw [if_neg hw]
  · have hlinks : (generate_topology (initState seed)).network_links =
        createNetworkLinks topoEdgeServers topoCameras := rfl
    rw [hlinks]
    intro lk hlk hstoch
    unfold createNetworkLinks at hlk
    rcases List.mem_append.1 hlk with h12 | hcam
    · rcases List.mem_append.1 h12 with hA | hW
      · obtain ⟨e, he, rfl⟩ := List.mem_map.1 hA
        exact absurd (show (false : Bool) = true from hstoch) (by decide)
      · have hW2 : lk = wLinkWanPrimary ∨ lk = wLinkWanBackup := by
          simpa [wLinkWanPrimary, wLinkWanBackup] using hW
        rcases hW2 with rfl | rfl
        · refine ⟨fun hw => absurd hw (by decide), fun _ => ?_⟩
          obtain ⟨hstorm, hrain⟩ := weatherLink_wan wLinkWanPrimary rfl rfl
          refine ⟨hstorm, hrain, rfl, ?_, fun _ => ⟨rfl, ?_⟩⟩
          · rw [hstorm]
            show (1000 : ℚ) * (7 / 10) = 700
            norm_num
          · rw [hstorm]
            show (15 : ℚ) * (3 / 2) = 45 / 2
            norm_num
        · refine ⟨fun hw => absurd hw (by decide), fun _ => ?_⟩
          obtain ⟨hstorm, hrain⟩ := weatherLink_wan wLinkWanBackup rfl rfl
          refine ⟨hstorm, hrain, rfl, ?_, fun hdst => absurd hdst (by decide)⟩
          rw [hstorm]
          show (1000 : ℚ) * (7 / 10) = 700
          norm_num
    · obtain ⟨cam, hc, rfl⟩ := List.mem_map.1 hcam
      have ho : camTerminal cam = "Perimeter" := of_decide_eq_true hstoch
      have hcap : (camLink cam).capacity_mbps = 300 := by
        simp [camLink, ho]
      have htype : (camLink cam).link_type = "wireless" := by
        simp [camLink, ho]
      refine ⟨fun _ => ?_, fun hwan => ?_⟩
      · obtain ⟨hrain, hstorm⟩ := weatherLink_wireless (camLink cam) hstoch htype
        refine ⟨hrain, hcap, ?_, hstorm⟩
        rw [hrain]
        show (camLink cam).capacity_mbps * (8 / 10) = 240
        rw [hcap]
        norm_num
      · rw [htype] at hwan
        exact absurd hwan (by decide)

/-- Witness for C3 at the concrete primary WAN link. -/
theorem C3_weather_physics_numbers_witness :
    weatherLink "storm" wLinkWanPrimary =
      { wLinkWanPrimary with
          capacity_mbps := wLinkWanPrimary.capacity_mbps * (7 / 10)
          latency_ms := wLinkWanPrimary.latency_ms * (3 / 2) } ∧
    weatherLink "rain" wLinkWanPrimary = wLinkWanPrimary ∧
    wLinkWanPrimary.capacity_mbps = 1000 ∧
    (weatherLink "storm" wLinkWanPrimary).capacity_mbps = 700 ∧
    (wLinkWanPrimary.dst = "cloud_primary" →
      wLinkWanPrimary.latency_ms = 15 ∧
      (weatherLink "storm" wLinkWanPrimary).latency_ms = 45 / 2) :=
  ((C3_weather_physics_numbers 0).2 wLinkWanPrimary (by
      show wLinkWanPrimary ∈ createNetworkLinks topoEdgeServers topoCameras
      unfold createNetworkLinks
      exact List.mem_append.2 (Or.inl (List.mem_append.2 (Or.inr
        (List.mem_cons_self _ _)))) ) rfl).2 rfl

lemma randUniform_bounds (s : Nat) :
    9 / 10 ≤ (randUniform (9 / 10) (11 / 10) s).1 ∧
    (randUniform (9 / 10) (11 / 10) s).1 ≤ 11 / 10 := by
  have h0 := randFloat_nonneg s
  have h1 := randFloat_lt_one s
  constructor
  · show (9 : ℚ) / 10 ≤ 9 / 10 + (11 / 10 - 9 / 10) * (randFloat s).1
    nlinarith
  · show (9 : ℚ) / 10 + (11 / 10 - 9 / 10) * (randFloat s).1 ≤ 11 / 10
    nlinarith

/-- C8 (amended): each flow's compute intensity is the zone profile's
base intensity times one uniform jitter factor from [0.9, 1.1], clamped
at 1; the processing delay is the profile's base delay, not jittered. -/
theorem C8_compute_jitter_amended (strategy : String) (s : GenState) (f : VideoFlow)
    (hf : f ∈ (generate_flows strategy s).flows) :
    f.compute_intensity ≤ 1 ∧
    f.processing_delay_ms = (analytics_profile f.analytics_type).2 ∧
    ∃ j : ℚ, 9 / 10 ≤ j ∧ j ≤ 11 / 10 ∧
      f.compute_intensity = min 1 ((analytics_profile f.analytics_type).1 * j) := by
  obtain ⟨cam, rng0, _, rfl⟩ :=
    mem_flowsLoop strategy s.edge_servers s.cameras s.rng f hf
  refine ⟨min_le_left 1 _, rfl, ?_⟩
  obtain ⟨hb1, hb2⟩ :=
    randUniform_bounds (flowDest strategy s.edge_servers cam rng0).2
  exact ⟨(randUniform (9 / 10) (11 / 10)
      (flowDest strategy s.edge_servers cam rng0).2).1, hb1, hb2, rfl⟩

/-- Witness for C8 (amended) at a concrete strategy, state, and flow. -/
theorem C8_compute_jitter_amended_witness :
    flowA.compute_intensity ≤ 1 ∧
    flowA.processing_delay_ms = (analytics_profile flowA.analytics_type).2 ∧
    ∃ j : ℚ, 9 / 10 ≤ j ∧ j ≤ 11 / 10 ∧
      flowA.compute_intensity = min 1 ((analytics_profile flowA.analytics_type).1 * j) :=
  C8_compute_jitter_amended "all_edge" wState1 flowA (List.mem_singleton.2 rfl)

/-- The jitter behaviour exactly as the spec sentence states it: one
uniform factor from [0.9, 1.1] multiplies both the base
compute-intensity and the base processing-delay of every flow. -/
def specJitterBothClaim (strategy : String) (s : GenState) : Prop :=
  ∀ f ∈ (generate_flows strategy s).flows, ∃ j : ℚ, 9 / 10 ≤ j ∧ j ≤ 11 / 10 ∧
    f.compute_intensity = min 1 ((analytics_profile f.analytics_type).1 * j) ∧
    f.processing_delay_ms = (analytics_profile f.analytics_type).2 * j

/-- Counterexample to C8 as stated: at this concrete state the flow's
jitter is 0.9 (intensity 0.72 = 0.8 × 0.9) but its processing delay is
the unjittered base 150, so no single factor explains both fields. -/
theorem C8_counterexample_delay_not_jittered :
    ¬ specJitterBothClaim "all_edge" wState1 := by
  intro h
  obtain ⟨j, hj1, hj2, hint, hdel⟩ := h flowA (List.mem_singleton.2 rfl)
  have hdel' : (150 : ℚ) = 150 * j := hdel
  have hjone : j = 1 := by linarith
  rw [hjone] at hint
  have hr0 : (randFloat 0).1 = 0 := by
    show ((0 % M31 : Nat) : ℚ) / ((M31 : Nat) : ℚ) = 0
    norm_num [M31]
  have hj0 : (randUniform (9 / 10) (11 / 10) 0).1 = 9 / 10 := by
    show (9 : ℚ) / 10 + (11 / 10 - 9 / 10) * (randFloat 0).1 = 9 / 10
    rw [hr0]
    ring
  have hiA : flowA.compute_intensity =
      min 1 ((8 : ℚ) / 10 * (randUniform (9 / 10) (11 / 10) 0).1) := rfl
  rw [hj0] at hiA
  have hiB : flowA.compute_intensity = min 1 ((8 : ℚ) / 10 * 1) := hint
  have hcontra : min 1 ((8 : ℚ) / 10 * (9 / 10)) = min 1 ((8 : ℚ) / 10 * 1) := by
    rw [← hiA, hiB]
  norm_num [min_def] at hcontra

end AirportGen
